import Mathlib

/-!
# ClauseGuard — standard-clause taxonomy and gap detection, formalised

A shallow embedding of `myapp/services/contract_clause_mapping.py`
(class `ContractClauseMapper`) and of the alternate gap detector
`ContractAnalysisService._find_missing_clauses` from
`myapp/services/contract_analysis_service.py`, together with theorems
checking the natural-language specification of the module.

Modelling conventions:
* A Python dict loaded from `standard_clauses.json` is modelled by a
  structure whose fields are `Option`-valued (a `.get` with an absent key
  yields `none`); the top-level JSON object is an association list from
  contract-type keys to profiles (Python dicts have unique keys; lookup is
  first-match).
* Python strings are Lean `String`s; `str.lower()` is `String.toLower`,
  `str.strip()` is `String.trim`, and the substring test `a in b` is the
  infix relation on the underlying character lists.
* The file-system / JSON layer of `_load_clauses` is modelled abstractly:
  the resource is `none` when the file is absent, `some none` when its
  content does not parse as JSON, and `some (some d)` when it parses to `d`.
-/

namespace ClauseGuard

/-- One standard-clause entry of `standard_clauses.json`.  Every field is
optional because the code reads each one with `dict.get`, which returns
`None` when the key is absent. -/
structure Clause where
  id : Option String
  type : Option String
  priority : Option String
  description : Option String
  recommendations : Option String
  standard_text : Option String
deriving Repr, DecidableEq

/-- One `(contract_type, jurisdiction)` profile of `standard_clauses.json`.
The three tier fields are optional: the code reads them with
`dict.get(tier, [])`. -/
structure Profile where
  contract_type : Option String
  jurisdiction : Option String
  critical_clauses : Option (List Clause)
  important_clauses : Option (List Clause)
  optional_clauses : Option (List Clause)
deriving Repr, DecidableEq

/-- The parsed top-level JSON object: contract-type key → profile. -/
abbrev StandardClauses := List (String × Profile)

/-- Python dict lookup (`d[k]` / `k in d`): first entry with the given key. -/
def pyDictGet {α : Type} (d : List (String × α)) (k : String) : Option α :=
  match d with
  | [] => none
  | (k₂, v) :: rest => if k₂ = k then some v else pyDictGet rest k

/-- The two exceptions `_load_clauses` can raise: `FileNotFoundError` when
`standard_clauses.json` is absent, `ValueError` when its content is not
valid JSON. -/
inductive LoadError where
  | fileNotFound
  | invalidJson
deriving Repr, DecidableEq

/-- `ContractClauseMapper._load_clauses`.  The resource argument is the
abstract state of the JSON file: `none` = file absent, `some none` =
unparsable content, `some (some d)` = content parsing to `d`.  The code
stores whatever parsed — it performs no validation of the parsed shape. -/
def load_clauses : Option (Option StandardClauses) → Except LoadError StandardClauses
  | none => .error .fileNotFound
  | some none => .error .invalidJson
  | some (some data) => .ok data

/-- The dict returned by `get_standard_clauses_for_type`: it always carries
exactly the three tier keys. -/
structure TierDict where
  critical_clauses : List Clause
  important_clauses : List Clause
  optional_clauses : List Clause
deriving Repr, DecidableEq

/-- `ContractClauseMapper.get_standard_clauses_for_type`: look up the
profile under the key `f"{contract_type}_{jurisdiction}"`; absent profile
degrades to three empty tiers, absent tier fields degrade to `[]`. -/
def get_standard_clauses_for_type (scs : StandardClauses)
    (contract_type : String) (jurisdiction : String) : TierDict :=
  let key := contract_type ++ "_" ++ jurisdiction
  match pyDictGet scs key with
  | none =>
      { critical_clauses := [], important_clauses := [], optional_clauses := [] }
  | some contract_data =>
      { critical_clauses := contract_data.critical_clauses.getD []
        important_clauses := contract_data.important_clauses.getD []
        optional_clauses := contract_data.optional_clauses.getD [] }

/-- `ContractClauseMapper.get_critical_clauses_for_type`. -/
def get_critical_clauses_for_type (scs : StandardClauses)
    (contract_type : String) (jurisdiction : String) : List Clause :=
  (get_standard_clauses_for_type scs contract_type jurisdiction).critical_clauses

/-- `ContractClauseMapper.get_important_clauses_for_type`. -/
def get_important_clauses_for_type (scs : StandardClauses)
    (contract_type : String) (jurisdiction : String) : List Clause :=
  (get_standard_clauses_for_type scs contract_type jurisdiction).important_clauses

/-- `ContractClauseMapper.get_optional_clauses_for_type`. -/
def get_optional_clauses_for_type (scs : StandardClauses)
    (contract_type : String) (jurisdiction : String) : List Clause :=
  (get_standard_clauses_for_type scs contract_type jurisdiction).optional_clauses

/-- `ContractClauseMapper.is_clause_standard`: scan the three tiers in
order and return `True` on the first clause whose `'type'` equals the
query (Python `clause.get('type') == clause_type`; `None == str` is
`False`). -/
def is_clause_standard (scs : StandardClauses)
    (clause_type : String) (contract_type : String) (jurisdiction : String) : Bool :=
  let all_clauses := get_standard_clauses_for_type scs contract_type jurisdiction
  all_clauses.critical_clauses.any (fun clause => decide (clause.type = some clause_type)) ||
    all_clauses.important_clauses.any (fun clause => decide (clause.type = some clause_type)) ||
      all_clauses.optional_clauses.any (fun clause => decide (clause.type = some clause_type))

/-- The body of the per-tier loop inside `find_missing_clauses`: append
`clause['type']` to the accumulator when the type is present, truthy
(non-empty), and its lower-casing is not in `found_lower`. -/
def missingStep (found_lower : List String) (missing : List String) (clause : Clause) :
    List String :=
  match clause.type with
  | some clause_name =>
      if clause_name ≠ "" ∧ clause_name.toLower ∉ found_lower then
        missing ++ [clause_name]
      else
        missing
  | none => missing

/-- The per-tier loop inside `find_missing_clauses`. -/
def checkMissingTier (found_lower : List String) (clauses : List Clause) : List String :=
  clauses.foldl (missingStep found_lower) []

/-- `ContractClauseMapper.find_missing_clauses`: the returned Python dict,
whose keys are exactly the three `missing_*` lists, in literal order. -/
def find_missing_clauses (scs : StandardClauses) (found_clause_types : List String)
    (contract_type : String) (jurisdiction : String) : List (String × List String) :=
  let all_clauses := get_standard_clauses_for_type scs contract_type jurisdiction
  let found_lower := found_clause_types.map String.toLower
  [("missing_critical", checkMissingTier found_lower all_clauses.critical_clauses),
   ("missing_important", checkMissingTier found_lower all_clauses.important_clauses),
   ("missing_optional", checkMissingTier found_lower all_clauses.optional_clauses)]

/-- `ContractClauseMapper.get_clause_by_id`: scan the three tiers in order,
return the first clause whose `'id'` equals the query. -/
def get_clause_by_id (scs : StandardClauses) (clause_id : String)
    (contract_type : String) (jurisdiction : String) : Option Clause :=
  let all_clauses := get_standard_clauses_for_type scs contract_type jurisdiction
  match all_clauses.critical_clauses.find? (fun clause => decide (clause.id = some clause_id)) with
  | some clause => some clause
  | none =>
    match all_clauses.important_clauses.find? (fun clause => decide (clause.id = some clause_id)) with
    | some clause => some clause
    | none =>
      all_clauses.optional_clauses.find? (fun clause => decide (clause.id = some clause_id))

/-- `ContractClauseMapper.get_all_clauses_flat`: three append loops, one per
tier, in the order critical, important, optional. -/
def get_all_clauses_flat (scs : StandardClauses)
    (contract_type : String) (jurisdiction : String) : List Clause :=
  let all_clauses := get_standard_clauses_for_type scs contract_type jurisdiction
  let flat_list : List Clause := []
  let flat_list := all_clauses.critical_clauses.foldl (fun acc clause => acc ++ [clause]) flat_list
  let flat_list := all_clauses.important_clauses.foldl (fun acc clause => acc ++ [clause]) flat_list
  all_clauses.optional_clauses.foldl (fun acc clause => acc ++ [clause]) flat_list

/-! ## The orchestrator's alternate gap detector
`ContractAnalysisService._find_missing_clauses`
(`myapp/services/contract_analysis_service.py`). -/

/-- One element of the `found_clauses` argument of
`ContractAnalysisService._find_missing_clauses`: a clause dict read with
`clause.get('type', '')`. -/
structure FoundClause where
  type : Option String
deriving Repr, DecidableEq

/-- Python's substring test `needle in hay` on strings: the needle's
character list is a contiguous sublist of the hay's. -/
def strIn (needle hay : String) : Bool :=
  decide (needle.data <:+: hay.data)

/-- The body of the `found_types` loop of
`ContractAnalysisService._find_missing_clauses`: strip the clause's type;
when it is truthy (non-empty), add its lower-casing. -/
def serviceCollectStep (found_types : List String) (clause : FoundClause) : List String :=
  let clause_type := (clause.type.getD "").trim
  if clause_type ≠ "" then found_types ++ [clause_type.toLower] else found_types

/-- The `found_types` construction of
`ContractAnalysisService._find_missing_clauses`.  The Python `set` is
modelled as the list of insertions — the set is used only for
membership-style `any` queries, for which duplicates and order are
irrelevant. -/
def service_found_types (found_clauses : List FoundClause) : List String :=
  found_clauses.foldl serviceCollectStep []

/-- The body of the scan loop of
`ContractAnalysisService._find_missing_clauses`: append the standard
clause's name (defaulted to `'Unknown'`) unless its lower-casing and some
found name contain one another as substrings. -/
def serviceScanStep (found_types : List String) (missing : List String)
    (standard_clause : Clause) : List String :=
  let standard_type := (standard_clause.type.getD "").toLower
  if !(found_types.any fun found =>
        strIn standard_type found.toLower || strIn found.toLower standard_type) then
    missing ++ [standard_clause.type.getD "Unknown"]
  else
    missing

/-- `ContractAnalysisService._find_missing_clauses`: scan only the
critical and important tiers (jurisdiction defaulted to `"INDIA"`), count
a standard clause as found when its lower-cased name and some found name
contain one another as substrings, and truncate the result to 10. -/
def service_find_missing_clauses (scs : StandardClauses)
    (found_clauses : List FoundClause) (contract_type : String) : List String :=
  let found_types := service_found_types found_clauses
  let standard_clauses := get_standard_clauses_for_type scs contract_type "INDIA"
  let missing := standard_clauses.critical_clauses.foldl (serviceScanStep found_types) []
  let missing := standard_clauses.important_clauses.foldl (serviceScanStep found_types) missing
  missing.take 10

/-! ## Specification-side predicates
Declarative forms of the gap conditions, written from the spec's words, to
be compared with the loop-based code above. -/

/-- Spec-side missing condition of `FindMissingClauses`: a type name
qualifies for a tier's missing list when it is non-empty and its
case-folding equals no case-folded element of the found list
(exact-after-casefold, not substring). -/
def missingSpecPred (found_clause_types : List String) (s : String) : Bool :=
  decide (s ≠ "" ∧ ∀ f ∈ found_clause_types, String.toLower f ≠ String.toLower s)

/-- Spec-side view of the found names processed by the orchestrator's
detector: stripped, non-empty, lower-cased. -/
def serviceFoundNames (found_clauses : List FoundClause) : List String :=
  found_clauses.filterMap
    (fun clause =>
      let clause_type := (clause.type.getD "").trim
      if clause_type = "" then none else some clause_type.toLower)

/-- Spec-side matched condition of the orchestrator's detector: after
lower-casing, the standard clause name and some found name contain one
another as substrings, in either direction. -/
def serviceMatched (found_names : List String) (standard_clause : Clause) : Prop :=
  ∃ f ∈ found_names,
    (standard_clause.type.getD "").toLower.data <:+: f.toLower.data ∨
      f.toLower.data <:+: (standard_clause.type.getD "").toLower.data

instance (found_names : List String) (standard_clause : Clause) :
    Decidable (serviceMatched found_names standard_clause) := by
  unfold serviceMatched
  infer_instance

/-! ## Helper lemmas -/

theorem foldl_push_eq_append {α : Type} (l acc : List α) :
    l.foldl (fun a c => a ++ [c]) acc = acc ++ l := by
  induction l generalizing acc with
  | nil => simp
  | cons c t ih => simp [List.foldl_cons, ih]

theorem notMemMapLower_iff (F : List String) (s : String) :
    s.toLower ∉ F.map String.toLower ↔ ∀ f ∈ F, String.toLower f ≠ String.toLower s := by
  simp [List.mem_map]

theorem missingStep_some (F : List String) (missing : List String) (clause : Clause)
    (n : String) (hc : clause.type = some n) :
    missingStep (F.map String.toLower) missing clause
      = if missingSpecPred F n = true then missing ++ [n] else missing := by
  by_cases hcond : n ≠ "" ∧ n.toLower ∉ F.map String.toLower
  · have hpred : missingSpecPred F n = true := by
      simp only [missingSpecPred, decide_eq_true_eq]
      exact ⟨hcond.1, (notMemMapLower_iff F n).mp hcond.2⟩
    simp only [missingStep, hc]
    rw [if_pos hcond, if_pos hpred]
  · have hpred : ¬ missingSpecPred F n = true := by
      simp only [missingSpecPred, decide_eq_true_eq]
      intro hcontra
      exact hcond ⟨hcontra.1, (notMemMapLower_iff F n).mpr hcontra.2⟩
    simp only [missingStep, hc]
    rw [if_neg hcond, if_neg hpred]

/-- The per-tier loop of `find_missing_clauses` computes exactly the
spec-side filter of the tier's present type names. -/
theorem checkMissingTier_eq_filter (F : List String) (clauses : List Clause) :
    checkMissingTier (F.map String.toLower) clauses
      = (clauses.filterMap Clause.type).filter (missingSpecPred F) := by
  suffices h : ∀ acc : List String,
      clauses.foldl (missingStep (F.map String.toLower)) acc
        = acc ++ (clauses.filterMap Clause.type).filter (missingSpecPred F) by
    simpa [checkMissingTier] using h []
  intro acc
  induction clauses generalizing acc with
  | nil => simp
  | cons c t ih =>
    rw [List.foldl_cons]
    cases hc : c.type with
    | none =>
        rw [ih, List.filterMap_cons_none hc]
        have hstep : missingStep (F.map String.toLower) acc c = acc := by
          rw [missingStep, hc]
        rw [hstep]
    | some n =>
        rw [ih, List.filterMap_cons_some hc, missingStep_some F acc c n hc]
        by_cases hpred : missingSpecPred F n = true
        · rw [if_pos hpred, List.filter_cons_of_pos hpred]
          simp
        · rw [if_neg hpred, List.filter_cons_of_neg]
          simpa using hpred

/-! ## Claim theorems -/

/-- **C2** (code evaluation): the dict returned by `find_missing_clauses`
carries exactly the three `missing_*` keys and no `total_missing` entry,
for every input — although the repository's own tests
(`myapp/tests/test_phase3.py`) assert that the key is present. -/
theorem find_missing_clauses_has_no_total_missing (scs : StandardClauses)
    (found_clause_types : List String) (contract_type jurisdiction : String) :
    pyDictGet (find_missing_clauses scs found_clause_types contract_type jurisdiction)
        "total_missing" = none ∧
      (find_missing_clauses scs found_clause_types contract_type jurisdiction).map Prod.fst
        = ["missing_critical", "missing_important", "missing_optional"] := by
  refine ⟨?_, by simp [find_missing_clauses]⟩
  simp only [find_missing_clauses, pyDictGet]
  rw [if_neg (by decide : ¬ ("missing_critical" = "total_missing")),
    if_neg (by decide : ¬ ("missing_important" = "total_missing")),
    if_neg (by decide : ¬ ("missing_optional" = "total_missing"))]

/-- **C4**: when no profile is loaded under the key
`contract_type ++ "_" ++ jurisdiction`, `find_missing_clauses` returns the
three-key dict with all lists empty, and the three per-tier getters return
the empty sequence. -/
theorem unknown_scope_leniency (scs : StandardClauses)
    (found_clause_types : List String) (contract_type jurisdiction : String)
    (h : pyDictGet scs (contract_type ++ "_" ++ jurisdiction) = none) :
    find_missing_clauses scs found_clause_types contract_type jurisdiction
        = [("missing_critical", []), ("missing_important", []), ("missing_optional", [])] ∧
      get_critical_clauses_for_type scs contract_type jurisdiction = [] ∧
      get_important_clauses_for_type scs contract_type jurisdiction = [] ∧
      get_optional_clauses_for_type scs contract_type jurisdiction = [] := by
  have htier : get_standard_clauses_for_type scs contract_type jurisdiction
      = { critical_clauses := [], important_clauses := [], optional_clauses := [] } := by
    simp [get_standard_clauses_for_type, h]
  refine ⟨?_, ?_, ?_, ?_⟩ <;>
    simp [find_missing_clauses, get_critical_clauses_for_type,
      get_important_clauses_for_type, get_optional_clauses_for_type, htier, checkMissingTier]

/-- **C4 witness**: a concrete unknown scope. -/
theorem unknown_scope_leniency_witness :
    pyDictGet ([] : StandardClauses) ("NO_SUCH_TYPE" ++ "_" ++ "INDIA") = none ∧
      (find_missing_clauses [] ["Pay"] "NO_SUCH_TYPE" "INDIA"
          = [("missing_critical", []), ("missing_important", []), ("missing_optional", [])] ∧
        get_critical_clauses_for_type [] "NO_SUCH_TYPE" "INDIA" = [] ∧
        get_important_clauses_for_type [] "NO_SUCH_TYPE" "INDIA" = [] ∧
        get_optional_clauses_for_type [] "NO_SUCH_TYPE" "INDIA" = []) :=
  ⟨rfl, unknown_scope_leniency [] ["Pay"] "NO_SUCH_TYPE" "INDIA" rfl⟩

/-- **C5**: for a loaded profile, `get_all_clauses_flat` is the critical
tier followed by the important tier followed by the optional tier, and its
length is the sum of the three tier lengths. -/
theorem get_all_clauses_flat_concat (scs : StandardClauses)
    (contract_type jurisdiction : String) (p : Profile)
    (h : pyDictGet scs (contract_type ++ "_" ++ jurisdiction) = some p) :
    get_all_clauses_flat scs contract_type jurisdiction
        = p.critical_clauses.getD [] ++ p.important_clauses.getD []
            ++ p.optional_clauses.getD [] ∧
      (get_all_clauses_flat scs contract_type jurisdiction).length
        = (p.critical_clauses.getD []).length + (p.important_clauses.getD []).length
            + (p.optional_clauses.getD []).length := by
  have htier : get_standard_clauses_for_type scs contract_type jurisdiction
      = { critical_clauses := p.critical_clauses.getD []
          important_clauses := p.important_clauses.getD []
          optional_clauses := p.optional_clauses.getD [] } := by
    simp [get_standard_clauses_for_type, h]
  have hflat : get_all_clauses_flat scs contract_type jurisdiction
      = p.critical_clauses.getD [] ++ p.important_clauses.getD []
          ++ p.optional_clauses.getD [] := by
    simp [get_all_clauses_flat, htier, foldl_push_eq_append]
  exact ⟨hflat, by simp [hflat, Nat.add_assoc]⟩

/-! ## Concrete reference data for witnesses and counterexamples -/

def wClause1 : Clause :=
  { id := some "C1", type := some "Pay", priority := some "critical",
    description := some "d1", recommendations := some "r1", standard_text := some "t1" }

def wClause2 : Clause :=
  { id := some "C2", type := some "Term", priority := some "critical",
    description := some "d2", recommendations := some "r2", standard_text := some "t2" }

def wClause3 : Clause :=
  { id := some "I1", type := some "Scope", priority := some "important",
    description := some "d3", recommendations := some "r3", standard_text := some "t3" }

def wClause4 : Clause :=
  { id := some "O1", type := some "Notice", priority := some "optional",
    description := some "d4", recommendations := some "r4", standard_text := some "t4" }

def wProfile : Profile :=
  { contract_type := some "Service Agreement", jurisdiction := some "India",
    critical_clauses := some [wClause1, wClause2],
    important_clauses := some [wClause3],
    optional_clauses := some [wClause4] }

def wScs : StandardClauses := [("SA_IN", wProfile)]

/-- A clause whose `type` is the empty string, as it could occur in the
loaded JSON (the loader performs no validation). -/
def ceClause : Clause :=
  { id := some "C0", type := some "", priority := some "critical",
    description := none, recommendations := none, standard_text := none }

def ceProfile : Profile :=
  { contract_type := some "A", jurisdiction := some "IN",
    critical_clauses := some [ceClause],
    important_clauses := some [],
    optional_clauses := some [] }

def ceScs : StandardClauses := [("A_IN", ceProfile)]

/-- A profile missing the `critical_clauses` field, as parsed JSON may
contain. -/
def c8Profile : Profile :=
  { contract_type := some "Svc", jurisdiction := some "IN",
    critical_clauses := none, important_clauses := some [], optional_clauses := some [] }

/-- `pyDictGet` on the literal dict built by `find_missing_clauses`. -/
theorem pyDictGet_missing_keys (l1 l2 l3 : List String) :
    pyDictGet [("missing_critical", l1), ("missing_important", l2), ("missing_optional", l3)]
        "missing_critical" = some l1 ∧
      pyDictGet [("missing_critical", l1), ("missing_important", l2), ("missing_optional", l3)]
        "missing_important" = some l2 ∧
      pyDictGet [("missing_critical", l1), ("missing_important", l2), ("missing_optional", l3)]
        "missing_optional" = some l3 := by
  refine ⟨?_, ?_, ?_⟩ <;> simp [pyDictGet]

/-- **C5 witness**: the concrete profile `wProfile`. -/
theorem get_all_clauses_flat_concat_witness :
    pyDictGet wScs ("SA" ++ "_" ++ "IN") = some wProfile ∧
      (get_all_clauses_flat wScs "SA" "IN"
          = wProfile.critical_clauses.getD [] ++ wProfile.important_clauses.getD []
              ++ wProfile.optional_clauses.getD [] ∧
        (get_all_clauses_flat wScs "SA" "IN").length
          = (wProfile.critical_clauses.getD []).length
              + (wProfile.important_clauses.getD []).length
              + (wProfile.optional_clauses.getD []).length) :=
  ⟨by decide, get_all_clauses_flat_concat wScs "SA" "IN" wProfile (by decide)⟩

/-- **C6**: `is_clause_standard` is total and returns `true` exactly when
some clause of one of the three tiers has `type` equal (case-sensitively)
to the query; an absent profile yields `false`. -/
theorem is_clause_standard_iff (scs : StandardClauses)
    (clause_type contract_type jurisdiction : String) :
    (is_clause_standard scs clause_type contract_type jurisdiction = true ↔
      ∃ clause,
        (clause ∈ get_critical_clauses_for_type scs contract_type jurisdiction ∨
          clause ∈ get_important_clauses_for_type scs contract_type jurisdiction ∨
            clause ∈ get_optional_clauses_for_type scs contract_type jurisdiction) ∧
          clause.type = some clause_type) ∧
      (pyDictGet scs (contract_type ++ "_" ++ jurisdiction) = none →
        is_clause_standard scs clause_type contract_type jurisdiction = false) := by
  constructor
  · simp only [is_clause_standard, Bool.or_eq_true, List.any_eq_true, decide_eq_true_eq,
      get_critical_clauses_for_type, get_important_clauses_for_type,
      get_optional_clauses_for_type]
    aesop
  · intro h
    have htier : get_standard_clauses_for_type scs contract_type jurisdiction
        = { critical_clauses := [], important_clauses := [], optional_clauses := [] } := by
      simp [get_standard_clauses_for_type, h]
    simp [is_clause_standard, htier]

/-- **C6 witness**: an absent profile yields `false`. -/
theorem is_clause_standard_iff_witness :
    pyDictGet ([] : StandardClauses) ("SA" ++ "_" ++ "IN") = none ∧
      is_clause_standard [] "Pay" "SA" "IN" = false :=
  ⟨rfl, (is_clause_standard_iff [] "Pay" "SA" "IN").2 rfl⟩

/-- **C8 (amended)**: `_load_clauses` fails exactly when the resource is
absent (`FileNotFoundError`) or unparsable (`ValueError`); any parsed
structure is stored unvalidated, so a profile missing one of the three
priority-tier fields does not make the load fail. -/
theorem load_clauses_error_iff (resource : Option (Option StandardClauses)) :
    (∃ e, load_clauses resource = .error e) ↔ resource = none ∨ resource = some none := by
  rcases resource with _ | (_ | data) <;> simp [load_clauses]

/-- **C8 counterexample**: a parsed resource whose only profile lacks the
`critical_clauses` field loads successfully, contradicting the claim that
such a malformed profile makes the load fail. -/
theorem load_clauses_accepts_missing_tier :
    c8Profile.critical_clauses = none ∧
      load_clauses (some (some [("SVC_IN", c8Profile)]))
        = .ok [("SVC_IN", c8Profile)] :=
  ⟨rfl, rfl⟩

/-- **C1 counterexample**: in the loaded profile `ceProfile` the critical
tier contains `ceClause`, whose type is the empty string; with the empty
found list, the case-folded type `""` equals no case-folded found element,
yet the clause is not reported missing — refuting the claim that a clause
is listed exactly when its case-folded type matches no found name. -/
theorem find_missing_clauses_empty_type_counterexample :
    pyDictGet ceScs ("A" ++ "_" ++ "IN") = some ceProfile ∧
      ceClause ∈ ceProfile.critical_clauses.getD [] ∧
      ceClause.type = some "" ∧
      find_missing_clauses ceScs [] "A" "IN"
        = [("missing_critical", []), ("missing_important", []), ("missing_optional", [])] ∧
      "" ∉ (pyDictGet (find_missing_clauses ceScs [] "A" "IN") "missing_critical").getD [] := by
  refine ⟨by decide, by decide, rfl, by decide, by decide⟩

/-- **C1 (amended)**: for a loaded profile, each missing list of
`find_missing_clauses` is exactly the tier's sequence of present type
names filtered by the exact-after-casefold condition — a clause is listed
iff its type is present, non-empty, and its case-folding equals no
case-folded element of the found list — and is therefore a subsequence of
the tier's type-name sequence, in original order. -/
theorem find_missing_clauses_characterization (scs : StandardClauses)
    (found_clause_types : List String) (contract_type jurisdiction : String) (p : Profile)
    (h : pyDictGet scs (contract_type ++ "_" ++ jurisdiction) = some p) :
    (pyDictGet (find_missing_clauses scs found_clause_types contract_type jurisdiction)
          "missing_critical"
        = some (((p.critical_clauses.getD []).filterMap Clause.type).filter
            (missingSpecPred found_clause_types)) ∧
      pyDictGet (find_missing_clauses scs found_clause_types contract_type jurisdiction)
          "missing_important"
        = some (((p.important_clauses.getD []).filterMap Clause.type).filter
            (missingSpecPred found_clause_types)) ∧
      pyDictGet (find_missing_clauses scs found_clause_types contract_type jurisdiction)
          "missing_optional"
        = some (((p.optional_clauses.getD []).filterMap Clause.type).filter
            (missingSpecPred found_clause_types))) ∧
      (List.Sublist
          (((p.critical_clauses.getD []).filterMap Clause.type).filter
            (missingSpecPred found_clause_types))
          ((p.critical_clauses.getD []).filterMap Clause.type) ∧
        List.Sublist
          (((p.important_clauses.getD []).filterMap Clause.type).filter
            (missingSpecPred found_clause_types))
          ((p.important_clauses.getD []).filterMap Clause.type) ∧
        List.Sublist
          (((p.optional_clauses.getD []).filterMap Clause.type).filter
            (missingSpecPred found_clause_types))
          ((p.optional_clauses.getD []).filterMap Clause.type)) := by
  have htier : get_standard_clauses_for_type scs contract_type jurisdiction
      = { critical_clauses := p.critical_clauses.getD []
          important_clauses := p.important_clauses.getD []
          optional_clauses := p.optional_clauses.getD [] } := by
    simp [get_standard_clauses_for_type, h]
  have hfm : find_missing_clauses scs found_clause_types contract_type jurisdiction
      = [("missing_critical",
            ((p.critical_clauses.getD []).filterMap Clause.type).filter
              (missingSpecPred found_clause_types)),
         ("missing_important",
            ((p.important_clauses.getD []).filterMap Clause.type).filter
              (missingSpecPred found_clause_types)),
         ("missing_optional",
            ((p.optional_clauses.getD []).filterMap Clause.type).filter
              (missingSpecPred found_clause_types))] := by
    simp only [find_missing_clauses, htier]
    rw [checkMissingTier_eq_filter, checkMissingTier_eq_filter, checkMissingTier_eq_filter]
  obtain ⟨h1, h2, h3⟩ := pyDictGet_missing_keys
    (((p.critical_clauses.getD []).filterMap Clause.type).filter
      (missingSpecPred found_clause_types))
    (((p.important_clauses.getD []).filterMap Clause.type).filter
      (missingSpecPred found_clause_types))
    (((p.optional_clauses.getD []).filterMap Clause.type).filter
      (missingSpecPred found_clause_types))
  rw [hfm]
  exact ⟨⟨h1, h2, h3⟩, List.filter_sublist _, List.filter_sublist _, List.filter_sublist _⟩

/-- **C1 witness**: the concrete profile `wProfile` with a case-folded
found name. -/
theorem find_missing_clauses_characterization_witness :
    pyDictGet wScs ("SA" ++ "_" ++ "IN") = some wProfile ∧
      ((pyDictGet (find_missing_clauses wScs ["pay", "scope"] "SA" "IN") "missing_critical"
          = some (((wProfile.critical_clauses.getD []).filterMap Clause.type).filter
              (missingSpecPred ["pay", "scope"])) ∧
        pyDictGet (find_missing_clauses wScs ["pay", "scope"] "SA" "IN") "missing_important"
          = some (((wProfile.important_clauses.getD []).filterMap Clause.type).filter
              (missingSpecPred ["pay", "scope"])) ∧
        pyDictGet (find_missing_clauses wScs ["pay", "scope"] "SA" "IN") "missing_optional"
          = some (((wProfile.optional_clauses.getD []).filterMap Clause.type).filter
              (missingSpecPred ["pay", "scope"]))) ∧
        (List.Sublist
            (((wProfile.critical_clauses.getD []).filterMap Clause.type).filter
              (missingSpecPred ["pay", "scope"]))
            ((wProfile.critical_clauses.getD []).filterMap Clause.type) ∧
          List.Sublist
            (((wProfile.important_clauses.getD []).filterMap Clause.type).filter
              (missingSpecPred ["pay", "scope"]))
            ((wProfile.important_clauses.getD []).filterMap Clause.type) ∧
          List.Sublist
            (((wProfile.optional_clauses.getD []).filterMap Clause.type).filter
              (missingSpecPred ["pay", "scope"]))
            ((wProfile.optional_clauses.getD []).filterMap Clause.type))) :=
  ⟨by decide,
    find_missing_clauses_characterization wScs ["pay", "scope"] "SA" "IN" wProfile (by decide)⟩

/-- The flat sequence of present type names of a profile, critical then
important then optional. -/
def profileFlatNames (p : Profile) : List String :=
  (p.critical_clauses.getD [] ++ p.important_clauses.getD []
    ++ p.optional_clauses.getD []).filterMap Clause.type

/-- **C3**: for a loaded profile all of whose clauses have present,
non-empty type names, feeding the full flat name list back in reports
nothing missing, and feeding the empty list in reports every name —
the three missing lists concatenate to the flat name list, and the sum of
their lengths is its length. -/
theorem gap_complement_law (scs : StandardClauses)
    (contract_type jurisdiction : String) (p : Profile)
    (h : pyDictGet scs (contract_type ++ "_" ++ jurisdiction) = some p)
    (hne : ∀ c ∈ p.critical_clauses.getD [] ++ p.important_clauses.getD []
        ++ p.optional_clauses.getD [], c.type.getD "" ≠ "") :
    find_missing_clauses scs (profileFlatNames p) contract_type jurisdiction
        = [("missing_critical", []), ("missing_important", []), ("missing_optional", [])] ∧
      (pyDictGet (find_missing_clauses scs [] contract_type jurisdiction)
            "missing_critical").getD []
          ++ (pyDictGet (find_missing_clauses scs [] contract_type jurisdiction)
            "missing_important").getD []
          ++ (pyDictGet (find_missing_clauses scs [] contract_type jurisdiction)
            "missing_optional").getD []
        = profileFlatNames p ∧
      ((pyDictGet (find_missing_clauses scs [] contract_type jurisdiction)
            "missing_critical").getD []).length
          + ((pyDictGet (find_missing_clauses scs [] contract_type jurisdiction)
            "missing_important").getD []).length
          + ((pyDictGet (find_missing_clauses scs [] contract_type jurisdiction)
            "missing_optional").getD []).length
        = (profileFlatNames p).length := by
  have htier : get_standard_clauses_for_type scs contract_type jurisdiction
      = { critical_clauses := p.critical_clauses.getD []
          important_clauses := p.important_clauses.getD []
          optional_clauses := p.optional_clauses.getD [] } := by
    simp [get_standard_clauses_for_type, h]
  have hsub1 : ∀ c ∈ p.critical_clauses.getD [],
      c ∈ p.critical_clauses.getD [] ++ p.important_clauses.getD []
        ++ p.optional_clauses.getD [] := by
    intro c hc
    simp only [List.mem_append]
    exact Or.inl (Or.inl hc)
  have hsub2 : ∀ c ∈ p.important_clauses.getD [],
      c ∈ p.critical_clauses.getD [] ++ p.important_clauses.getD []
        ++ p.optional_clauses.getD [] := by
    intro c hc
    simp only [List.mem_append]
    exact Or.inl (Or.inr hc)
  have hsub3 : ∀ c ∈ p.optional_clauses.getD [],
      c ∈ p.critical_clauses.getD [] ++ p.important_clauses.getD []
        ++ p.optional_clauses.getD [] := by
    intro c hc
    simp only [List.mem_append]
    exact Or.inr hc
  have hnil : ∀ tier : List Clause,
      (∀ c ∈ tier, c ∈ p.critical_clauses.getD [] ++ p.important_clauses.getD []
        ++ p.optional_clauses.getD []) →
      (tier.filterMap Clause.type).filter (missingSpecPred (profileFlatNames p)) = [] := by
    intro tier hsub
    rw [List.filter_eq_nil_iff]
    intro s hs
    obtain ⟨c, hc, hct⟩ := List.mem_filterMap.mp hs
    have hsS : s ∈ profileFlatNames p := List.mem_filterMap.mpr ⟨c, hsub c hc, hct⟩
    simp only [missingSpecPred, decide_eq_true_eq, not_and]
    intro _ hall
    exact (hall s hsS rfl).elim
  have hfull : ∀ tier : List Clause,
      (∀ c ∈ tier, c ∈ p.critical_clauses.getD [] ++ p.important_clauses.getD []
        ++ p.optional_clauses.getD []) →
      (tier.filterMap Clause.type).filter (missingSpecPred ([] : List String))
        = tier.filterMap Clause.type := by
    intro tier hsub
    rw [List.filter_eq_self]
    intro s hs
    obtain ⟨c, hc, hct⟩ := List.mem_filterMap.mp hs
    have hcne := hne c (hsub c hc)
    rw [hct] at hcne
    simp only [missingSpecPred, decide_eq_true_eq]
    exact ⟨by simpa using hcne, by simp⟩
  have hfmS : find_missing_clauses scs (profileFlatNames p) contract_type jurisdiction
      = [("missing_critical", []), ("missing_important", []), ("missing_optional", [])] := by
    simp only [find_missing_clauses, htier]
    rw [checkMissingTier_eq_filter, checkMissingTier_eq_filter, checkMissingTier_eq_filter,
      hnil _ hsub1, hnil _ hsub2, hnil _ hsub3]
  have hfm0 : find_missing_clauses scs [] contract_type jurisdiction
      = [("missing_critical", (p.critical_clauses.getD []).filterMap Clause.type),
         ("missing_important", (p.important_clauses.getD []).filterMap Clause.type),
         ("missing_optional", (p.optional_clauses.getD []).filterMap Clause.type)] := by
    simp only [find_missing_clauses, htier]
    rw [show ([] : List String).map String.toLower = ([] : List String).map String.toLower
        from rfl]
    rw [checkMissingTier_eq_filter, checkMissingTier_eq_filter, checkMissingTier_eq_filter,
      hfull _ hsub1, hfull _ hsub2, hfull _ hsub3]
  obtain ⟨h1, h2, h3⟩ := pyDictGet_missing_keys
    ((p.critical_clauses.getD []).filterMap Clause.type)
    ((p.important_clauses.getD []).filterMap Clause.type)
    ((p.optional_clauses.getD []).filterMap Clause.type)
  rw [hfm0]
  refine ⟨hfmS, ?_, ?_⟩
  · rw [h1, h2, h3]
    simp [profileFlatNames, List.filterMap_append]
  · rw [h1, h2, h3]
    simp [profileFlatNames, List.filterMap_append, Nat.add_assoc]

/-- **C3 witness**: the concrete profile `wProfile`, whose four clause
names are all present and non-empty. -/
theorem gap_complement_law_witness :
    (pyDictGet wScs ("SA" ++ "_" ++ "IN") = some wProfile ∧
      ∀ c ∈ wProfile.critical_clauses.getD [] ++ wProfile.important_clauses.getD []
        ++ wProfile.optional_clauses.getD [], c.type.getD "" ≠ "") ∧
      (find_missing_clauses wScs (profileFlatNames wProfile) "SA" "IN"
          = [("missing_critical", []), ("missing_important", []), ("missing_optional", [])] ∧
        (pyDictGet (find_missing_clauses wScs [] "SA" "IN") "missing_critical").getD []
            ++ (pyDictGet (find_missing_clauses wScs [] "SA" "IN") "missing_important").getD []
            ++ (pyDictGet (find_missing_clauses wScs [] "SA" "IN") "missing_optional").getD []
          = profileFlatNames wProfile ∧
        ((pyDictGet (find_missing_clauses wScs [] "SA" "IN") "missing_critical").getD []).length
            + ((pyDictGet (find_missing_clauses wScs [] "SA" "IN")
              "missing_important").getD []).length
            + ((pyDictGet (find_missing_clauses wScs [] "SA" "IN")
              "missing_optional").getD []).length
          = (profileFlatNames wProfile).length) :=
  ⟨⟨by decide, by decide⟩,
    gap_complement_law wScs "SA" "IN" wProfile (by decide) (by decide)⟩

/-- **C9**: every name in any of the three missing lists is non-empty and
is the present `type` of some clause of the corresponding profile tiers —
so a clause whose `type` is absent or empty is never reported missing. -/
theorem missing_lists_have_present_nonempty_types (scs : StandardClauses)
    (found_clause_types : List String) (contract_type jurisdiction : String) (s : String)
    (h : s ∈ (pyDictGet (find_missing_clauses scs found_clause_types contract_type jurisdiction)
          "missing_critical").getD [] ∨
        s ∈ (pyDictGet (find_missing_clauses scs found_clause_types contract_type jurisdiction)
          "missing_important").getD [] ∨
        s ∈ (pyDictGet (find_missing_clauses scs found_clause_types contract_type jurisdiction)
          "missing_optional").getD []) :
    s ≠ "" ∧ ∃ clause,
      (clause ∈ get_critical_clauses_for_type scs contract_type jurisdiction ∨
        clause ∈ get_important_clauses_for_type scs contract_type jurisdiction ∨
          clause ∈ get_optional_clauses_for_type scs contract_type jurisdiction) ∧
        clause.type = some s := by
  have hfm : find_missing_clauses scs found_clause_types contract_type jurisdiction
      = [("missing_critical",
            (((get_standard_clauses_for_type scs contract_type jurisdiction).critical_clauses).filterMap
              Clause.type).filter (missingSpecPred found_clause_types)),
         ("missing_important",
            (((get_standard_clauses_for_type scs contract_type jurisdiction).important_clauses).filterMap
              Clause.type).filter (missingSpecPred found_clause_types)),
         ("missing_optional",
            (((get_standard_clauses_for_type scs contract_type jurisdiction).optional_clauses).filterMap
              Clause.type).filter (missingSpecPred found_clause_types))] := by
    simp only [find_missing_clauses]
    rw [checkMissingTier_eq_filter, checkMissingTier_eq_filter, checkMissingTier_eq_filter]
  obtain ⟨h1, h2, h3⟩ := pyDictGet_missing_keys
    ((((get_standard_clauses_for_type scs contract_type jurisdiction).critical_clauses).filterMap
      Clause.type).filter (missingSpecPred found_clause_types))
    ((((get_standard_clauses_for_type scs contract_type jurisdiction).important_clauses).filterMap
      Clause.type).filter (missingSpecPred found_clause_types))
    ((((get_standard_clauses_for_type scs contract_type jurisdiction).optional_clauses).filterMap
      Clause.type).filter (missingSpecPred found_clause_types))
  rw [hfm, h1, h2, h3] at h
  have hname : ∀ tier : List Clause,
      s ∈ (tier.filterMap Clause.type).filter (missingSpecPred found_clause_types) →
      s ≠ "" ∧ ∃ clause, clause ∈ tier ∧ clause.type = some s := by
    intro tier hs
    obtain ⟨hmem, hpred⟩ := List.mem_filter.mp hs
    obtain ⟨hne, -⟩ := of_decide_eq_true hpred
    obtain ⟨c, hc, hct⟩ := List.mem_filterMap.mp hmem
    exact ⟨hne, c, hc, hct⟩
  rcases h with h | h | h
  · obtain ⟨hne, c, hc, hct⟩ := hname _ h
    exact ⟨hne, c, Or.inl hc, hct⟩
  · obtain ⟨hne, c, hc, hct⟩ := hname _ h
    exact ⟨hne, c, Or.inr (Or.inl hc), hct⟩
  · obtain ⟨hne, c, hc, hct⟩ := hname _ h
    exact ⟨hne, c, Or.inr (Or.inr hc), hct⟩

/-- **C9 witness**: `"Pay"` is reported missing for `wProfile` with an
empty found list, and it is indeed a non-empty present type name. -/
theorem missing_lists_have_present_nonempty_types_witness :
    "Pay" ∈ (pyDictGet (find_missing_clauses wScs [] "SA" "IN") "missing_critical").getD [] ∧
      ("Pay" ≠ "" ∧ ∃ clause,
        (clause ∈ get_critical_clauses_for_type wScs "SA" "IN" ∨
          clause ∈ get_important_clauses_for_type wScs "SA" "IN" ∨
            clause ∈ get_optional_clauses_for_type wScs "SA" "IN") ∧
          clause.type = some "Pay") :=
  ⟨by decide,
    missing_lists_have_present_nonempty_types wScs [] "SA" "IN" "Pay" (Or.inl (by decide))⟩

/-- If the present `id` values of a clause list are pairwise distinct,
`find?` by a member's id returns exactly that member. -/
theorem find_by_id_of_nodup (l : List Clause) (c : Clause) (i : String)
    (hmem : c ∈ l) (hid : c.id = some i)
    (hnd : (l.filterMap Clause.id).Nodup) :
    l.find? (fun clause => decide (clause.id = some i)) = some c := by
  induction l with
  | nil => cases hmem
  | cons d t ih =>
    by_cases hd : d.id = some i
    · have hceq : c = d := by
        rcases List.mem_cons.mp hmem with hcd | hct
        · exact hcd
        · exfalso
          have hi : i ∈ t.filterMap Clause.id := List.mem_filterMap.mpr ⟨c, hct, hid⟩
          rw [List.filterMap_cons_some hd, List.nodup_cons] at hnd
          exact hnd.1 hi
      subst hceq
      rw [List.find?_cons_of_pos _ (by simp [hd])]
    · have hct : c ∈ t := by
        rcases List.mem_cons.mp hmem with hcd | hct
        · exact absurd (by rw [← hcd]; exact hid) hd
        · exact hct
      have hnd' : (t.filterMap Clause.id).Nodup := by
        cases hdi : d.id with
        | none =>
            rw [List.filterMap_cons_none hdi] at hnd
            exact hnd
        | some j =>
            rw [List.filterMap_cons_some hdi, List.nodup_cons] at hnd
            exact hnd.2
      rw [List.find?_cons_of_neg _ (by simp [hd])]
      exact ih hct hnd'

/-- `get_clause_by_id` is `find?` over the three tiers concatenated in
order. -/
theorem get_clause_by_id_eq_find (scs : StandardClauses) (clause_id : String)
    (contract_type jurisdiction : String) :
    get_clause_by_id scs clause_id contract_type jurisdiction
      = ((get_standard_clauses_for_type scs contract_type jurisdiction).critical_clauses
          ++ (get_standard_clauses_for_type scs contract_type jurisdiction).important_clauses
          ++ (get_standard_clauses_for_type scs contract_type jurisdiction).optional_clauses).find?
        (fun clause => decide (clause.id = some clause_id)) := by
  simp only [get_clause_by_id]
  rw [List.find?_append, List.find?_append]
  cases hc : ((get_standard_clauses_for_type scs contract_type jurisdiction).critical_clauses).find?
      (fun clause => decide (clause.id = some clause_id)) with
  | some c => simp [hc, Option.or]
  | none =>
    cases hi : ((get_standard_clauses_for_type scs contract_type jurisdiction).important_clauses).find?
        (fun clause => decide (clause.id = some clause_id)) with
    | some c => simp [hc, hi, Option.or]
    | none => simp [hc, hi, Option.or]

/-- **C7**: under the load invariant that the present `id` values of one
profile are pairwise distinct across the three tiers, looking a clause of
any tier up by its own id returns exactly that clause. -/
theorem get_clause_by_id_roundtrip (scs : StandardClauses)
    (contract_type jurisdiction : String) (p : Profile) (c : Clause) (i : String)
    (h : pyDictGet scs (contract_type ++ "_" ++ jurisdiction) = some p)
    (hmem : c ∈ p.critical_clauses.getD [] ++ p.important_clauses.getD []
      ++ p.optional_clauses.getD [])
    (hid : c.id = some i)
    (hnd : ((p.critical_clauses.getD [] ++ p.important_clauses.getD []
      ++ p.optional_clauses.getD []).filterMap Clause.id).Nodup) :
    get_clause_by_id scs i contract_type jurisdiction = some c := by
  have htier : get_standard_clauses_for_type scs contract_type jurisdiction
      = { critical_clauses := p.critical_clauses.getD []
          important_clauses := p.important_clauses.getD []
          optional_clauses := p.optional_clauses.getD [] } := by
    simp [get_standard_clauses_for_type, h]
  rw [get_clause_by_id_eq_find, htier]
  exact find_by_id_of_nodup _ c i hmem hid hnd

/-- **C7 witness**: `wClause3` of the important tier is recovered by its
id `"I1"`. -/
theorem get_clause_by_id_roundtrip_witness :
    (pyDictGet wScs ("SA" ++ "_" ++ "IN") = some wProfile ∧
      wClause3 ∈ wProfile.critical_clauses.getD [] ++ wProfile.important_clauses.getD []
        ++ wProfile.optional_clauses.getD [] ∧
      wClause3.id = some "I1" ∧
      ((wProfile.critical_clauses.getD [] ++ wProfile.important_clauses.getD []
        ++ wProfile.optional_clauses.getD []).filterMap Clause.id).Nodup) ∧
      get_clause_by_id wScs "I1" "SA" "IN" = some wClause3 :=
  ⟨⟨by decide, by decide, rfl, by decide⟩,
    get_clause_by_id_roundtrip wScs "SA" "IN" wProfile wClause3 "I1"
      (by decide) (by decide) rfl (by decide)⟩

/-- The `found_types` loop collects exactly the stripped, non-empty,
lower-cased found names, in order. -/
theorem service_found_types_eq_names (found_clauses : List FoundClause) :
    service_found_types found_clauses = serviceFoundNames found_clauses := by
  suffices h : ∀ acc : List String,
      found_clauses.foldl serviceCollectStep acc = acc ++ serviceFoundNames found_clauses by
    simpa [service_found_types] using h []
  intro acc
  induction found_clauses generalizing acc with
  | nil => simp [serviceFoundNames]
  | cons fc t ih =>
    rw [List.foldl_cons, ih]
    by_cases hfc : (fc.type.getD "").trim = ""
    · have h1 : serviceCollectStep acc fc = acc := by
        simp [serviceCollectStep, hfc]
      have h2 : serviceFoundNames (fc :: t) = serviceFoundNames t := by
        unfold serviceFoundNames
        rw [List.filterMap_cons_none (by simp [hfc])]
      rw [h1, h2]
    · have h1 : serviceCollectStep acc fc = acc ++ [(fc.type.getD "").trim.toLower] := by
        simp [serviceCollectStep, hfc]
      have h2 : serviceFoundNames (fc :: t)
          = (fc.type.getD "").trim.toLower :: serviceFoundNames t := by
        unfold serviceFoundNames
        refine List.filterMap_cons_some ?_
        simp [hfc]
      rw [h1, h2]
      simp

/-- The scan step appends the clause's display name exactly when the
substring-matching condition fails. -/
theorem serviceScanStep_eq (found_types missing : List String) (standard_clause : Clause) :
    serviceScanStep found_types missing standard_clause
      = if serviceMatched found_types standard_clause then missing
        else missing ++ [standard_clause.type.getD "Unknown"] := by
  by_cases hm : serviceMatched found_types standard_clause
  · have hany : (found_types.any fun found =>
        strIn (standard_clause.type.getD "").toLower found.toLower ||
          strIn found.toLower (standard_clause.type.getD "").toLower) = true := by
      obtain ⟨f, hf, hor⟩ := hm
      refine List.any_eq_true.mpr ⟨f, hf, ?_⟩
      simp only [strIn, Bool.or_eq_true, decide_eq_true_eq]
      exact hor
    simp [serviceScanStep, hany, hm]
  · have hany : (found_types.any fun found =>
        strIn (standard_clause.type.getD "").toLower found.toLower ||
          strIn found.toLower (standard_clause.type.getD "").toLower) = false := by
      rw [List.any_eq_false]
      intro f hf hcon
      simp only [strIn, Bool.or_eq_true, decide_eq_true_eq] at hcon
      exact hm ⟨f, hf, hcon⟩
    simp [serviceScanStep, hany, hm]

theorem foldl_serviceScanStep_eq (F : List String) (l : List Clause) (acc : List String) :
    l.foldl (serviceScanStep F) acc
      = acc ++ (l.filter (fun c => decide (¬ serviceMatched F c))).map
          (fun c => c.type.getD "Unknown") := by
  induction l generalizing acc with
  | nil => simp
  | cons c t ih =>
    rw [List.foldl_cons, ih, serviceScanStep_eq]
    by_cases hm : serviceMatched F c
    · rw [if_pos hm, List.filter_cons_of_neg (by simp [hm])]
    · rw [if_neg hm, List.filter_cons_of_pos (by simp [hm]), List.map_cons]
      simp

/-- **C10**: the orchestrator's alternate detector returns at most 10
names; it returns exactly the first 10 clauses of the critical tier
followed by the important tier (never the optional tier) whose lower-cased
name and no processed found name contain one another as substrings, in
order, each rendered as its type name (`'Unknown'` when absent). -/
theorem service_find_missing_clauses_spec (scs : StandardClauses)
    (found_clauses : List FoundClause) (contract_type : String) :
    (service_find_missing_clauses scs found_clauses contract_type).length ≤ 10 ∧
      service_find_missing_clauses scs found_clauses contract_type
        = (((get_critical_clauses_for_type scs contract_type "INDIA"
              ++ get_important_clauses_for_type scs contract_type "INDIA").filter
                (fun c => decide (¬ serviceMatched (serviceFoundNames found_clauses) c))).map
            (fun c => c.type.getD "Unknown")).take 10 := by
  have heq : service_find_missing_clauses scs found_clauses contract_type
      = (((get_critical_clauses_for_type scs contract_type "INDIA"
            ++ get_important_clauses_for_type scs contract_type "INDIA").filter
              (fun c => decide (¬ serviceMatched (serviceFoundNames found_clauses) c))).map
          (fun c => c.type.getD "Unknown")).take 10 := by
    simp only [service_find_missing_clauses, service_found_types_eq_names,
      get_critical_clauses_for_type, get_important_clauses_for_type]
    rw [foldl_serviceScanStep_eq, foldl_serviceScanStep_eq]
    simp [List.filter_append]
  refine ⟨?_, heq⟩
  rw [heq, List.length_take]
  exact Nat.min_le_left _ _

end ClauseGuard
